import Mathlib

/-!
# Verification of the gstreasy core against its specification

This file gives a shallow embedding, in Lean 4, of the claim-relevant parts of
the gstreasy repository (src/gstreasy/utils.py, src/gstreasy/pipeline.py,
src/gstreasy/wrapped_caps.py) and settles the frozen claims about it.

Modelling conventions:

* Python exceptions are modelled by the `Py` result type: `Py.ok v` is a normal
  return, `Py.exn e` is a raised exception of class `e`.  A Lean function whose
  result type is not wrapped in `Py` corresponds to Python code with no raise
  path.
* Python `float` arithmetic in `AppSrc` is modelled over `ℚ`.  Every concrete
  scenario proved below only produces integers below `2 ^ 53`, where IEEE-754
  double arithmetic on the operations used (`+`, `/` with exact results) agrees
  exactly with rational arithmetic, so the idealisation is exact on all inputs
  appearing in the theorems.
* GStreamer itself (the external engine) is out of scope of the repository; the
  few facts taken from it (the `GstVideo.VideoFormatFlags` bit values and the
  per-format flag/bit table served by `GstVideo.VideoFormat.get_info`) are
  transcribed for the handful of formats the claims mention.
* Threads: the embedding is single-threaded.  Loops that in Python wait on a
  concurrently filled queue are modelled with an explicit retry-count (`fuel`)
  parameter; the theorems below only evaluate them in states where no producer
  is running, where the loop is deterministic.
-/

/-- Python exception classes that can escape the embedded code. -/
inductive PyErr where
  | indexError
  | valueError
  | zeroDivisionError
  | runtimeError
  | keyError
  | typeError
  deriving DecidableEq, Repr

/-- Result of running a piece of Python code: a value or a raised exception. -/
inductive Py (α : Type) where
  | ok (v : α)
  | exn (e : PyErr)
  deriving DecidableEq, Repr

/-! ## LeakyQueue (src/gstreasy/utils.py, class LeakyQueue)

`LeakyQueue` subclasses `queue.Queue`; its state is the FIFO list of items
(front = oldest), the `maxsize` bound inherited from `queue.Queue`, and the
`dropped` counter.  The `on_drop` callback defaults to a no-op and is not
modelled. -/

structure LeakyQueue (α : Type) where
  maxsize : Nat
  items : List α
  dropped : Nat
  deriving DecidableEq

/-- `queue.Queue.full()`: `0 < maxsize <= qsize()`. -/
def LeakyQueue.isFull {α} (q : LeakyQueue α) : Prop :=
  0 < q.maxsize ∧ q.maxsize ≤ q.items.length

instance {α} (q : LeakyQueue α) : Decidable q.isFull := by
  unfold LeakyQueue.isFull; infer_instance

/-- `LeakyQueue.put`: if the queue is full, `get_nowait()` removes the oldest
item (the list head) and `dropped` is incremented, then the new item is
appended.  (`super().put` cannot block afterwards: one slot is free.) -/
def LeakyQueue.put {α} (q : LeakyQueue α) (item : α) : LeakyQueue α :=
  if q.isFull then
    { q with items := q.items.tail ++ [item], dropped := q.dropped + 1 }
  else
    { q with items := q.items ++ [item] }

/-- A freshly constructed `LeakyQueue(maxsize)`: empty, `dropped = 0`. -/
def LeakyQueue.init (α : Type) (maxsize : Nat) : LeakyQueue α :=
  { maxsize := maxsize, items := [], dropped := 0 }

/-- Insert a whole list of items in order, with no intervening removals. -/
def LeakyQueue.putAll {α} (q : LeakyQueue α) (xs : List α) : LeakyQueue α :=
  xs.foldl LeakyQueue.put q

theorem LeakyQueue.putAll_cons {α} (q : LeakyQueue α) (x : α) (xs : List α) :
    q.putAll (x :: xs) = (q.put x).putAll xs := rfl

/-- Full characterisation of `putAll` from any state whose length respects the
bound: resulting contents are the most recent `maxsize` items, `dropped` counts
every eviction, the length never grows past the bound. -/
theorem LeakyQueue.putAll_spec {α} (N : Nat) (hN : 0 < N) :
    ∀ (xs : List α) (q : LeakyQueue α), q.maxsize = N → q.items.length ≤ N →
      (q.putAll xs).maxsize = N ∧
      (q.putAll xs).items = (q.items ++ xs).drop (q.items.length + xs.length - N) ∧
      (q.putAll xs).dropped = q.dropped + (q.items.length + xs.length - N) ∧
      (q.putAll xs).items.length = min (q.items.length + xs.length) N := by
  intro xs
  induction xs with
  | nil =>
    intro q hmax hlen
    refine ⟨hmax, ?_, ?_, ?_⟩ <;>
      simp only [LeakyQueue.putAll, List.foldl_nil, List.append_nil,
        List.length_nil, Nat.add_zero]
    · rw [Nat.sub_eq_zero_of_le hlen, List.drop_zero]
    · omega
    · omega
  | cons x rest ih =>
    intro q hmax hlen
    rw [LeakyQueue.putAll_cons]
    by_cases hfull : q.isFull
    · -- the queue is exactly full: the head is evicted before appending
      have hqN : q.items.length = N := by
        rcases hfull with ⟨h1, h2⟩; omega
      have hitems : (q.put x).items = q.items.tail ++ [x] := by
        simp [LeakyQueue.put, hfull]
      have hdropeq : (q.put x).dropped = q.dropped + 1 := by
        simp [LeakyQueue.put, hfull]
      have hmax2 : (q.put x).maxsize = N := by
        simp [LeakyQueue.put, hfull, hmax]
      obtain ⟨y, t, hyt⟩ : ∃ y t, q.items = y :: t := by
        cases hq : q.items with
        | nil => rw [hq] at hqN; simp at hqN; omega
        | cons y t => exact ⟨y, t, rfl⟩
      have htlen : (q.put x).items.length = N := by
        rw [hitems, hyt]; rw [hyt] at hqN; simp at hqN ⊢; omega
      obtain ⟨m1, m2, m3, m4⟩ := ih (q.put x) hmax2 (by omega)
      refine ⟨m1, ?_, ?_, ?_⟩
      · rw [m2, htlen, hitems]
        have hdroplhs : N + rest.length - N = rest.length := by omega
        have hdroprhs : q.items.length + (x :: rest).length - N = rest.length + 1 := by
          simp only [List.length_cons]; omega
        rw [hdroplhs, hdroprhs, hyt]
        simp [List.drop_succ_cons, List.append_assoc]
      · rw [m3, htlen, hdropeq, hqN]
        simp only [List.length_cons]
        omega
      · rw [m4, htlen, hqN]
        simp only [List.length_cons]
        omega
    · -- not full: plain FIFO append
      have hitems : (q.put x).items = q.items ++ [x] := by
        simp [LeakyQueue.put, hfull]
      have hdropeq : (q.put x).dropped = q.dropped := by
        simp [LeakyQueue.put, hfull]
      have hmax2 : (q.put x).maxsize = N := by
        simp [LeakyQueue.put, hfull, hmax]
      have hlen2 : (q.put x).items.length = q.items.length + 1 := by
        rw [hitems]; simp
      obtain ⟨m1, m2, m3, m4⟩ := ih (q.put x) hmax2 (by
        rw [hlen2]
        unfold LeakyQueue.isFull at hfull
        omega)
      refine ⟨m1, ?_, ?_, ?_⟩
      · rw [m2, hlen2, hitems]
        simp only [List.append_assoc, List.singleton_append, List.length_cons]
        congr 1
        omega
      · rw [m3, hlen2, hdropeq]
        simp only [List.length_cons]
        congr 1
        omega
      · rw [m4, hlen2]
        simp only [List.length_cons]
        omega

/-- C2 helper: state after inserting `xs` into a fresh leaky queue of
capacity `N`. -/
theorem LeakyQueue.putAll_init {α} (N : Nat) (hN : 0 < N) (xs : List α) :
    ((LeakyQueue.init α N).putAll xs).items = xs.drop (xs.length - N) ∧
    ((LeakyQueue.init α N).putAll xs).dropped = xs.length - N ∧
    ((LeakyQueue.init α N).putAll xs).items.length = min xs.length N := by
  obtain ⟨h1, h2, h3, h4⟩ :=
    LeakyQueue.putAll_spec N hN xs (LeakyQueue.init α N) rfl (by simp [LeakyQueue.init])
  refine ⟨?_, ?_, ?_⟩
  · simpa [LeakyQueue.init] using h2
  · simpa [LeakyQueue.init] using h3
  · simpa [LeakyQueue.init] using h4

/-- C2: for a leaky queue of capacity `N`, after inserting `N + k` items
(`k ≥ 0`) into a fresh queue with no intervening removals, the queue contains
exactly the last `N` items (`i_{k+1} .. i_{N+k}`) in FIFO order, `dropped = k`,
and at no intermediate point does the length exceed `N`. -/
theorem leakyQueue_overflow_C2 {α} (N k : Nat) (hN : 0 < N)
    (xs : List α) (hlen : xs.length = N + k) :
    ((LeakyQueue.init α N).putAll xs).items = xs.drop k ∧
    ((LeakyQueue.init α N).putAll xs).dropped = k ∧
    ∀ m : Nat, ((LeakyQueue.init α N).putAll (xs.take m)).items.length ≤ N := by
  have hmain := LeakyQueue.putAll_init N hN xs
  refine ⟨?_, ?_, ?_⟩
  · rw [hmain.1, hlen]; congr 1; omega
  · rw [hmain.2.1, hlen]; omega
  · intro m
    have := (LeakyQueue.putAll_init N hN (xs.take m)).2.2
    rw [this]
    omega

/-- C2 witness: Scenario A — capacity 3, insert `[1,2,3,4,5]` (standing for
A,B,C,D,E): final contents `[3,4,5]`, `dropped = 2`, interim length ≤ 3. -/
theorem leakyQueue_overflow_C2_witness :
    ((LeakyQueue.init Nat 3).putAll [1, 2, 3, 4, 5]).items = [3, 4, 5] ∧
    ((LeakyQueue.init Nat 3).putAll [1, 2, 3, 4, 5]).dropped = 2 ∧
    ∀ m : Nat, ((LeakyQueue.init Nat 3).putAll (([1, 2, 3, 4, 5] : List Nat).take m)).items.length ≤ 3 := by
  have h := leakyQueue_overflow_C2 3 2 (by decide) [1, 2, 3, 4, 5] (by decide)
  exact ⟨by simpa using h.1, h.2.1, h.2.2⟩

/-! ## Video formats and channel derivation (src/gstreasy/utils.py,
`has_flag`, `_get_num_channels`, `get_num_channels`)

The `GstVideo.VideoFormatFlags` bit values and the per-format `flags`/`bits`
entries of `GstVideo.VideoFormat.get_info` are facts of the external GStreamer
library (an out-of-scope collaborator of the repository); they are transcribed
below for the format tags the claims mention. -/

/-- The format tags used by the claims. -/
inductive VideoFormat where
  | RGB
  | RGBA
  | BGRX
  | GRAY8
  | GRAY16LE
  | I420
  deriving DecidableEq, Repr

/-- `GstVideo.VideoFormatFlags.YUV`. -/
def flagYUV : Nat := 1
/-- `GstVideo.VideoFormatFlags.RGB`. -/
def flagRGB : Nat := 2
/-- `GstVideo.VideoFormatFlags.GRAY`. -/
def flagGRAY : Nat := 4
/-- `GstVideo.VideoFormatFlags.ALPHA`. -/
def flagALPHA : Nat := 8
/-- `GstVideo.VideoFormatFlags.LE`. -/
def flagLE : Nat := 16

/-- `GstVideo.VideoFormat.get_info(fmt).flags` for the modelled tags
(GStreamer's video-format info table). -/
def formatFlags : VideoFormat → Nat
  | .RGB => flagRGB
  | .RGBA => flagRGB ||| flagALPHA
  | .BGRX => flagRGB
  | .GRAY8 => flagGRAY
  | .GRAY16LE => flagGRAY ||| flagLE
  | .I420 => flagYUV

/-- `GstVideo.VideoFormat.get_info(fmt).bits` for the modelled tags. -/
def formatBits : VideoFormat → Nat
  | .RGB => 24
  | .RGBA => 32
  | .BGRX => 32
  | .GRAY8 => 8
  | .GRAY16LE => 16
  | .I420 => 8

/-- Fuel-driven ceiling base-2 logarithm: `⌈log2 n⌉ = 1 + ⌈log2 ⌈n/2⌉⌉` for
`n ≥ 2`; the fuel (always instantiated with `n` itself) bounds the number of
halvings and keeps the recursion structural. -/
def ceilLog2Go : Nat → Nat → Nat
  | _, 0 => 0
  | n, fuel + 1 => if n ≤ 1 then 0 else ceilLog2Go ((n + 1) / 2) fuel + 1

/-- `math.ceil(math.log2(n))` for a positive integer `n` (exact: `math.log2`
on a small int is correctly rounded, so the ceiling matches the mathematical
value for every flag constant). -/
def ceilLog2 (n : Nat) : Nat := ceilLog2Go n n

/-- `has_flag(value, flag)` from utils.py:
`bool(value & (1 << max(1, math.ceil(math.log2(int(flag))))))`. -/
def has_flag (value flag : Nat) : Bool :=
  value &&& (1 <<< max 1 (ceilLog2 flag)) != 0

/-- `_get_num_channels(fmt)` from utils.py (identical copy in
wrapped_caps.py): BGRX is special-cased to 4 ("temporal fix"), then
alpha → 4, RGB → 3, gray → 1, otherwise -1. -/
def _get_num_channels (fmt : VideoFormat) : Int :=
  let flags := formatFlags fmt
  if fmt = VideoFormat.BGRX then 4
  else if has_flag flags flagALPHA then 4
  else if has_flag flags flagRGB then 3
  else if has_flag flags flagGRAY then 1
  else -1

/-- `get_num_channels(fmt)`: looks `fmt` up in the process-wide table
`_format_channels()`, which memoizes `_get_num_channels` over
`GstVideo.VIDEO_FORMATS_ALL`; every modelled tag is in that list, so the
lookup never raises and equals `_get_num_channels`. -/
def get_num_channels (fmt : VideoFormat) : Int :=
  _get_num_channels fmt

/-! ## Buffers and ndarray decoding (src/gstreasy/utils.py
`gst_buffer_to_ndarray`, src/gstreasy/wrapped_caps.py `VideoCaps`/`AudioCaps`)

`np.ndarray` is modelled by its shape together with the raw bytes it
reinterprets, and construction by `np_ndarray`, which performs numpy's input
validation: a negative dimension raises `ValueError` ("negative dimensions are
not allowed") and a backing buffer smaller than the array needs raises
`TypeError` ("buffer is too small for requested array").  No claim depends on
element-level indexing beyond that. -/

/-- The numpy dtypes reachable in this code. -/
inductive NpDtype where
  | uint8
  | uint16
  | int8
  | int16
  deriving DecidableEq, Repr

/-- Element size in bytes (`np.dtype.itemsize`). -/
def NpDtype.itemsize : NpDtype → Nat
  | .uint8 => 1
  | .int8 => 1
  | .uint16 => 2
  | .int16 => 2

/-- `wrapped_caps._get_video_np_dtype`: `{8: uint8, 16: uint16}` keyed by
`get_info(fmt).bits`, default `uint8`. -/
def _get_video_np_dtype (fmt : VideoFormat) : NpDtype :=
  if formatBits fmt = 8 then .uint8
  else if formatBits fmt = 16 then .uint16
  else .uint8

/-- `utils._get_np_dtype`: `{16: int16}` keyed by bits, default `uint8`. -/
def _get_np_dtype (fmt : VideoFormat) : NpDtype :=
  if formatBits fmt = 16 then .int16 else .uint8

/-- An `np.ndarray`: its dimension list plus backing bytes.  The dimensions
are kept as `Int` because this code *requests* shapes containing `-1`; such a
request never constructs an array — see `np_ndarray`. -/
structure NDArr where
  shape : List Int
  bytes : List Nat
  deriving DecidableEq, Repr

/-- `np.ndarray.squeeze()` with no axis argument removes every dimension of
extent 1 (numpy semantics — not only the trailing one). -/
def NDArr.squeeze (a : NDArr) : NDArr :=
  { a with shape := a.shape.filter (fun d => d ≠ 1) }

/-- `wrapped_caps.VideoCaps` (and the `width/height/channels/format` part of
`utils.WrappedCaps`, which derives them identically). -/
structure VideoCaps where
  width : Nat
  height : Nat
  channels : Int
  format : VideoFormat
  dtype : NpDtype
  deriving DecidableEq, Repr

/-- `VideoCaps.wrap`: width/height from the caps structure, channels via
`get_num_channels`, dtype via `_get_video_np_dtype`. -/
def VideoCaps.wrap (width height : Nat) (format : VideoFormat) : VideoCaps :=
  { width := width, height := height, channels := get_num_channels format,
    format := format, dtype := _get_video_np_dtype format }

/-- `VideoCaps.shape`: `[height, width, channels]`. -/
def VideoCaps.shape (c : VideoCaps) : List Int :=
  [(c.height : Int), (c.width : Int), c.channels]

/-- `wrapped_caps.AudioCaps` (shape `[samples_per_channel, channels]`,
`samples_per_channel` derived from the buffer byte length). -/
structure AudioCaps where
  samplingFrequency : Nat
  channels : Int
  samplesPerChannel : Nat
  dtype : NpDtype
  deriving DecidableEq, Repr

/-- `AudioCaps.shape`. -/
def AudioCaps.shape (c : AudioCaps) : List Int :=
  [(c.samplesPerChannel : Int), c.channels]

/-- The resolved `WrappedCaps` union held by an `AppSink` (`wrapped_caps.py`
tagged variants). -/
inductive WrappedCaps where
  | video (c : VideoCaps)
  | audio (c : AudioCaps)
  deriving DecidableEq, Repr

/-- The duck-typed `caps.shape` used by `gst_buffer_to_ndarray`. -/
def WrappedCaps.shape : WrappedCaps → List Int
  | .video c => c.shape
  | .audio c => c.shape

/-- The duck-typed `caps.channels` used by `gst_buffer_to_ndarray`. -/
def WrappedCaps.channels : WrappedCaps → Int
  | .video c => c.channels
  | .audio c => c.channels

/-- The duck-typed `caps.dtype` used by `gst_buffer_to_ndarray`. -/
def WrappedCaps.dtype : WrappedCaps → NpDtype
  | .video c => c.dtype
  | .audio c => c.dtype

/-- A raw `Gst.Buffer` as delivered by the engine: mapped bytes plus timing
metadata (u64 nanoseconds, `2^64 - 1` = unset sentinel). -/
structure RawBuf where
  bytes : List Nat
  pts : Nat
  dts : Nat
  duration : Nat
  offset : Nat
  deriving DecidableEq, Repr

/-- The bytes a C-contiguous `np.ndarray(shape, dtype)` needs: the product of
the (non-negative) dimensions times the element size. -/
def npBytesNeeded (shape : List Int) (itemsize : Nat) : Nat :=
  (shape.foldl (fun acc d => acc * d.toNat) 1) * itemsize

/-- `np.ndarray(shape, buffer=bytes, dtype=...)`: shape validation first — any
negative dimension raises `ValueError` — then the buffer-size check — a buffer
with fewer bytes than the array needs raises `TypeError`. -/
def np_ndarray (shape : List Int) (itemsize : Nat) (bytes : List Nat) : Py NDArr :=
  if shape.any (fun d => d < 0) then .exn .valueError
  else if bytes.length < npBytesNeeded shape itemsize then .exn .typeError
  else .ok { shape := shape, bytes := bytes }

/-- `gst_buffer_to_ndarray(buf, caps)` from utils.py: reinterpret the mapped
bytes with `np.ndarray(caps.shape, buffer=mapped, dtype=caps.dtype)` — whose
validation errors propagate — then `arr.squeeze()` whenever
`caps.channels > 0`. -/
def gst_buffer_to_ndarray (buf : RawBuf) (caps : WrappedCaps) : Py NDArr :=
  match np_ndarray caps.shape caps.dtype.itemsize buf.bytes with
  | .exn e => .exn e
  | .ok arr => .ok (if caps.channels > 0 then arr.squeeze else arr)

/-- C5: channel count is derived from the format flags in a fixed priority
order (alpha → 4, else RGB → 3, else gray → 1), BGRX — which lacks the alpha
flag — is special-cased to 4, and the derivation matches the table on each
claimed tag (RGB → 3, GRAY8 → 1, an alpha tag → 4, the packed tag → 4). -/
theorem channel_derivation_C5 :
    (∀ fmt : VideoFormat, fmt ≠ VideoFormat.BGRX →
      has_flag (formatFlags fmt) flagALPHA = true → _get_num_channels fmt = 4) ∧
    (∀ fmt : VideoFormat, fmt ≠ VideoFormat.BGRX →
      has_flag (formatFlags fmt) flagALPHA = false →
      has_flag (formatFlags fmt) flagRGB = true → _get_num_channels fmt = 3) ∧
    (∀ fmt : VideoFormat, fmt ≠ VideoFormat.BGRX →
      has_flag (formatFlags fmt) flagALPHA = false →
      has_flag (formatFlags fmt) flagRGB = false →
      has_flag (formatFlags fmt) flagGRAY = true → _get_num_channels fmt = 1) ∧
    (_get_num_channels VideoFormat.BGRX = 4 ∧
      has_flag (formatFlags VideoFormat.BGRX) flagALPHA = false) ∧
    (_get_num_channels VideoFormat.RGB = 3 ∧
      _get_num_channels VideoFormat.GRAY8 = 1 ∧
      _get_num_channels VideoFormat.RGBA = 4 ∧
      _get_num_channels VideoFormat.GRAY16LE = 1) := by
  refine ⟨?_, ?_, ?_, ?_, ?_⟩
  · intro fmt; cases fmt <;> decide
  · intro fmt; cases fmt <;> decide
  · intro fmt; cases fmt <;> decide
  · decide
  · decide

/-- C5 witness: the priority-order clauses applied at concrete tags. -/
theorem channel_derivation_C5_witness :
    _get_num_channels VideoFormat.RGBA = 4 ∧
    _get_num_channels VideoFormat.RGB = 3 ∧
    _get_num_channels VideoFormat.GRAY8 = 1 :=
  ⟨channel_derivation_C5.1 VideoFormat.RGBA (by decide) (by decide),
   channel_derivation_C5.2.1 VideoFormat.RGB (by decide) (by decide) (by decide),
   channel_derivation_C5.2.2.1 VideoFormat.GRAY8 (by decide) (by decide) (by decide) (by decide)⟩

/-- C9: a format whose flag set has none of the ALPHA, RGB or GRAY flags
(e.g. plain YUV formats such as I420) derives channel count `-1` — no raise,
no positive count — and a video descriptor resolved for it carries shape
`(height, width, -1)`. -/
theorem yuv_channels_C9 (fmt : VideoFormat) (hb : fmt ≠ VideoFormat.BGRX)
    (ha : has_flag (formatFlags fmt) flagALPHA = false)
    (hr : has_flag (formatFlags fmt) flagRGB = false)
    (hg : has_flag (formatFlags fmt) flagGRAY = false) :
    _get_num_channels fmt = -1 ∧
    ∀ width height : Nat,
      (VideoCaps.wrap width height fmt).shape = [(height : Int), (width : Int), -1] := by
  have hch : _get_num_channels fmt = -1 := by
    simp [_get_num_channels, hb, ha, hr, hg]
  refine ⟨hch, ?_⟩
  intro width height
  simp [VideoCaps.wrap, VideoCaps.shape, get_num_channels, hch]

/-- C9 witness: I420 at 320×240. -/
theorem yuv_channels_C9_witness :
    _get_num_channels VideoFormat.I420 = -1 ∧
    (VideoCaps.wrap 320 240 VideoFormat.I420).shape = [(240 : Int), 320, -1] := by
  have h := yuv_channels_C9 VideoFormat.I420 (by decide) (by decide) (by decide) (by decide)
  exact ⟨h.1, h.2 320 240⟩

set_option maxRecDepth 8000 in
/-- C4 counterexample: the claim says buffers of formats with channel count
greater than 1 keep all three dimensions, but `arr.squeeze()` removes every
singleton dimension: a 1-pixel-wide RGB buffer (width=1, height=240,
channels=3, 720 mapped bytes) decodes to shape `[240, 3]`, not `[240, 1, 3]`. -/
theorem squeeze_C4_counterexample :
    gst_buffer_to_ndarray
        { bytes := List.replicate 720 0, pts := 0, dts := 0, duration := 0,
          offset := 0 }
        (WrappedCaps.video (VideoCaps.wrap 1 240 VideoFormat.RGB))
      = .ok { shape := [(240 : Int), 3], bytes := List.replicate 720 0 } ∧
    ([(240 : Int), 3] : List Int) ≠ [(240 : Int), 1, 3] := by
  constructor
  · decide
  · decide

/-- C4 amended: decoding reshapes to `(height, width, channels)` and then, for
every format with positive derived channel count (not only channel count 1),
`squeeze` removes every singleton dimension.  For non-degenerate frames
(height > 1 and width > 1) with enough mapped bytes this coincides with the
claim: channel count 1 yields `(height, width)` and channel count > 1 keeps
`(height, width, channels)`.  A format with negative derived channel count
(see C9) never yields an array at all: `np.ndarray` raises `ValueError` on the
negative dimension before any squeeze. -/
theorem squeeze_C4_amended (c : VideoCaps) (buf : RawBuf)
    (hh : 1 < c.height) (hw : 1 < c.width)
    (hsize : npBytesNeeded c.shape c.dtype.itemsize ≤ buf.bytes.length) :
    (c.channels = 1 →
      gst_buffer_to_ndarray buf (WrappedCaps.video c)
        = .ok { shape := [(c.height : Int), (c.width : Int)], bytes := buf.bytes }) ∧
    (1 < c.channels →
      gst_buffer_to_ndarray buf (WrappedCaps.video c)
        = .ok { shape := [(c.height : Int), (c.width : Int), c.channels],
                bytes := buf.bytes }) ∧
    (c.channels < 0 →
      gst_buffer_to_ndarray buf (WrappedCaps.video c) = .exn .valueError) := by
  have hh1 : ((c.height : Int) = 1) = False := by
    simp; omega
  have hw1 : ((c.width : Int) = 1) = False := by
    simp; omega
  have hsize2 : npBytesNeeded ((WrappedCaps.video c).shape)
      ((WrappedCaps.video c).dtype.itemsize) ≤ buf.bytes.length := hsize
  refine ⟨?_, ?_, ?_⟩
  · intro hc
    have hneg : (WrappedCaps.video c).shape.any (fun d => d < 0) = false := by
      simp [WrappedCaps.shape, VideoCaps.shape, hc]
    rw [gst_buffer_to_ndarray, np_ndarray, hneg]
    rw [if_neg (by simp), if_neg (by omega)]
    simp [WrappedCaps.shape, WrappedCaps.channels, VideoCaps.shape,
      NDArr.squeeze, hc, hh1, hw1]
  · intro hc
    have hcpos : c.channels > 0 := by omega
    have hc1 : (c.channels = 1) = False := by simp; omega
    have hneg : (WrappedCaps.video c).shape.any (fun d => d < 0) = false := by
      simp [WrappedCaps.shape, VideoCaps.shape]
      omega
    rw [gst_buffer_to_ndarray, np_ndarray, hneg]
    rw [if_neg (by simp), if_neg (by omega)]
    simp [WrappedCaps.shape, WrappedCaps.channels, VideoCaps.shape,
      NDArr.squeeze, hcpos, hc1, hh1, hw1]
  · intro hc
    have hneg : (WrappedCaps.video c).shape.any (fun d => d < 0) = true := by
      simp [WrappedCaps.shape, VideoCaps.shape]
      omega
    rw [gst_buffer_to_ndarray, np_ndarray, hneg]
    rw [if_pos (by simp)]

/-- C4 witness: Scenario C — a 320×240 GRAY8 buffer (76800 bytes) decodes to
`(240, 320)`; a 320×240 RGB buffer (230400 bytes) keeps `(240, 320, 3)`. -/
theorem squeeze_C4_amended_witness :
    gst_buffer_to_ndarray
        { bytes := List.replicate 76800 0, pts := 0, dts := 0, duration := 0,
          offset := 0 }
        (WrappedCaps.video (VideoCaps.wrap 320 240 VideoFormat.GRAY8))
      = .ok { shape := [(240 : Int), 320], bytes := List.replicate 76800 0 } ∧
    gst_buffer_to_ndarray
        { bytes := List.replicate 230400 0, pts := 0, dts := 0, duration := 0,
          offset := 0 }
        (WrappedCaps.video (VideoCaps.wrap 320 240 VideoFormat.RGB))
      = .ok { shape := [(240 : Int), 320, 3], bytes := List.replicate 230400 0 } := by
  constructor
  · exact (squeeze_C4_amended (VideoCaps.wrap 320 240 VideoFormat.GRAY8)
      { bytes := List.replicate 76800 0, pts := 0, dts := 0, duration := 0,
        offset := 0 }
      (by decide) (by decide)
      (by simp only [List.length_replicate]; decide)).1 (by decide)
  · exact (squeeze_C4_amended (VideoCaps.wrap 320 240 VideoFormat.RGB)
      { bytes := List.replicate 230400 0, pts := 0, dts := 0, duration := 0,
        offset := 0 }
      (by decide) (by decide)
      (by simp only [List.length_replicate]; decide)).2.1 (by decide)

/-! ## AppSrc (src/gstreasy/pipeline.py, class AppSrc)

`AppSrc` holds the source caps (modelled by their `Gst.Caps.to_string()`
serialisation, which is what `_calc_duration` actually consumes), the running
`pts` counter (a Python int that becomes a float on the first addition of the
float `duration` — modelled over `ℚ`), the `dts` sentinel `GLib.MAXUINT64`,
and the cached `_duration`. -/

/-- `GLib.MAXUINT64`. -/
def MAXUINT64 : Nat := 2 ^ 64 - 1

/-- Python `str.split(sep)` for a non-empty separator: left-to-right scan,
non-overlapping matches, always at least one piece.  The fuel (instantiated
with the string length + 1) keeps the recursion structural; a separator match
consumes at least one character, so the fuel never runs out. -/
def pySplitGo (sep : List Char) : Nat → List Char → List Char → List (List Char)
  | _, [], acc => [acc.reverse]
  | 0, s, acc => [acc.reverse ++ s]
  | fuel + 1, c :: rest, acc =>
    if sep.isPrefixOf (c :: rest) then
      acc.reverse :: pySplitGo sep fuel ((c :: rest).drop sep.length) []
    else
      pySplitGo sep fuel rest (c :: acc)

/-- Python `s.split(sep)`. -/
def pySplit (s sep : String) : List String :=
  (pySplitGo sep.toList (s.toList.length + 1) s.toList []).map List.asString

/-- Decimal digit test. -/
def isDigitCh (c : Char) : Bool := '0' ≤ c && c ≤ '9'

/-- Accumulate decimal digits. -/
def parseNatGo : List Char → Nat → Nat
  | [], acc => acc
  | c :: rest, acc => parseNatGo rest (acc * 10 + (c.toNat - '0'.toNat))

/-- Parse a non-empty all-digit string. -/
def parseNatL (s : List Char) : Option Nat :=
  if s ≠ [] ∧ s.all isDigitCh then some (parseNatGo s 0) else none

/-- `fractions.Fraction(string)` restricted to the inputs this code can feed
it: `"num"` or `"num/den"` with decimal digits (the caps serialisations in the
claims are all of this form).  A zero denominator raises `ZeroDivisionError`,
anything unparseable raises `ValueError`, as in Python. -/
def pyFraction (s : String) : Py (Nat × Nat) :=
  let l := s.toList
  let numPart := l.takeWhile (fun c => c ≠ '/')
  let rest := l.dropWhile (fun c => c ≠ '/')
  match rest with
  | [] =>
    match parseNatL numPart with
    | some n => .ok (n, 1)
    | none => .exn .valueError
  | _ :: denPart =>
    match parseNatL numPart, parseNatL denPart with
    | some n, some d => if d = 0 then .exn .zeroDivisionError else .ok (n, d)
    | _, _ => .exn .valueError

/-- The pure parsing prefix of `AppSrc._calc_duration` on a caps string:
`caps_string.split("(fraction)")[1].split(",")[0]`, then `Fraction(fps)` if
`fps` is non-empty.  `.ok none` is the `fps` falsy (empty) case, where the
duration stays 0; a missing `"(fraction)"` token makes the `[1]` index raise
`IndexError`. -/
def calcFps (s : String) : Py (Option (Nat × Nat)) :=
  match pySplit s ("(fraction)") with
  | _ :: second :: _ =>
    let fps := (pySplit second (",")).headD ("")
    if fps = "" then .ok none
    else
      match pyFraction fps with
      | .exn e => .exn e
      | .ok nd => .ok (some nd)
  | _ => .exn .indexError

/-- `AppSrc._calc_duration`: 0 when caps are unset; otherwise
`10**9 / (framerate.numerator / framerate.denominator)` (Python float
division — division by a zero framerate raises `ZeroDivisionError`). -/
def _calc_duration (caps : Option String) : Py ℚ :=
  match caps with
  | none => .ok 0
  | some s =>
    match calcFps s with
    | .exn e => .exn e
    | .ok none => .ok 0
    | .ok (some (n, d)) =>
      if (n : ℚ) / (d : ℚ) = 0 then .exn .zeroDivisionError
      else .ok ((1000000000 : ℚ) / ((n : ℚ) / (d : ℚ)))

/-- The `AppSrc` state. -/
structure AppSrc where
  caps : Option String
  pts : ℚ
  dts : Nat
  durCache : ℚ
  deriving DecidableEq

/-- A freshly constructed `AppSrc` (`pts = 0`, `dts = GLib.MAXUINT64`,
`_duration = 0`) with the given caps. -/
def AppSrc.init (caps : Option String) : AppSrc :=
  { caps := caps, pts := 0, dts := MAXUINT64, durCache := 0 }

/-- The `AppSrc.duration` property: recompute (and cache) whenever the cached
value is falsy (i.e. 0), else serve the cache. -/
def AppSrc.duration (src : AppSrc) : Py (ℚ × AppSrc) :=
  if src.durCache = 0 then
    match _calc_duration src.caps with
    | .exn e => .exn e
    | .ok d => .ok (d, { src with durCache := d })
  else .ok (src.durCache, src)

/-- The buffer record built by `AppSrc.push` and handed to the engine via
`push-sample`. -/
structure PushedBuf where
  pts : ℚ
  offset : ℚ
  duration : ℚ
  dts : Nat
  bytes : List Nat
  deriving DecidableEq

/-- `AppSrc.push(data)`: `self.pts += self.duration` (note: *before* the
buffer is built), `offset = self.pts / self.duration` (Python float division —
raises `ZeroDivisionError` when the duration is 0, before any buffer is
created or emitted), then wrap the bytes with this metadata and emit.  An
`.exn` result means the exception escaped before the engine saw any buffer. -/
def AppSrc.push (src : AppSrc) (data : List Nat) : Py (PushedBuf × AppSrc) :=
  match src.duration with
  | .exn e => .exn e
  | .ok (d, src1) =>
    let pts := src1.pts + d
    if d = 0 then .exn .zeroDivisionError
    else
      .ok ({ pts := pts, offset := pts / d, duration := d, dts := src1.dts,
             bytes := data },
           { src1 with pts := pts })

/-- Push a list of frames in sequence, collecting the emitted buffers. -/
def AppSrc.pushN (src : AppSrc) (frames : List (List Nat)) :
    Py (List PushedBuf × AppSrc) :=
  match frames with
  | [] => .ok ([], src)
  | f :: rest =>
    match src.push f with
    | .exn e => .exn e
    | .ok (b, src1) =>
      match src1.pushN rest with
      | .exn e => .exn e
      | .ok (bs, src2) => .ok (b :: bs, src2)

/-- The pts values of the buffers produced by a push sequence (`none` if an
exception escaped). -/
def pushedPts (r : Py (List PushedBuf × AppSrc)) : Option (List ℚ) :=
  match r with
  | .ok (bs, _) => some (bs.map PushedBuf.pts)
  | .exn _ => none

/-- The offsets of the buffers produced by a push sequence. -/
def pushedOffsets (r : Py (List PushedBuf × AppSrc)) : Option (List ℚ) :=
  match r with
  | .ok (bs, _) => some (bs.map PushedBuf.offset)
  | .exn _ => none

/-- The `Gst.Caps.to_string()` serialisation of the Scenario D source caps
(framerate 10/1, RGB, 320×240). -/
def capsScenarioD : String :=
  "video/x-raw, width=(int)320, height=(int)240, framerate=(fraction)10/1, format=(string)RGB"

theorem calcFps_scenarioD : calcFps capsScenarioD = .ok (some (10, 1)) := by
  decide

theorem calc_duration_scenarioD :
    _calc_duration (some capsScenarioD) = .ok ((100000000 : ℚ)) := by
  rw [_calc_duration, calcFps_scenarioD]
  norm_num

theorem AppSrc.pushN_cons (src : AppSrc) (f : List Nat) (rest : List (List Nat)) :
    src.pushN (f :: rest) =
      match src.push f with
      | .exn e => .exn e
      | .ok (b, src1) =>
        match src1.pushN rest with
        | .exn e => .exn e
        | .ok (bs, src2) => .ok (b :: bs, src2) := rfl

/-- Behaviour of a push sequence once a non-zero duration `d` is cached: the
`i`-th emitted buffer (0-based) carries `pts = pts₀ + (i+1)·d` and
`offset = pts/d`; the counter advances by `d` per call *before* each buffer is
built, so the first buffer already carries `pts₀ + d`. -/
theorem AppSrc.pushN_cached (d : ℚ) (hd : d ≠ 0) :
    ∀ (frames : List (List Nat)) (src : AppSrc), src.durCache = d →
      ∃ bs src2, src.pushN frames = .ok (bs, src2) ∧
        bs.map PushedBuf.pts
          = (List.range frames.length).map (fun i : Nat => src.pts + ((i : ℚ) + 1) * d) ∧
        bs.map PushedBuf.offset
          = (List.range frames.length).map
              (fun i : Nat => (src.pts + ((i : ℚ) + 1) * d) / d) ∧
        src2.pts = src.pts + (frames.length : ℚ) * d ∧
        src2.durCache = d := by
  intro frames
  induction frames with
  | nil =>
    intro src h
    exact ⟨[], src, rfl, by simp, by simp, by simp, h⟩
  | cons f rest ih =>
    intro src h
    have hdur : src.duration = .ok (d, src) := by
      rw [AppSrc.duration, h]
      simp [hd]
    have hpush : src.push f =
        .ok ({ pts := src.pts + d, offset := (src.pts + d) / d, duration := d,
               dts := src.dts, bytes := f },
             { src with pts := src.pts + d }) := by
      rw [AppSrc.push, hdur]
      simp [hd]
    obtain ⟨bs, src2, h1, h2, h3, h4, h5⟩ := ih { src with pts := src.pts + d } h
    refine ⟨{ pts := src.pts + d, offset := (src.pts + d) / d, duration := d,
              dts := src.dts, bytes := f } :: bs, src2, ?_, ?_, ?_, ?_, h5⟩
    · rw [AppSrc.pushN_cons, hpush]
      simp only
      rw [h1]
    · simp only [List.map_cons, h2, List.length_cons, List.range_succ_eq_map,
        List.map_map]
      rw [List.cons.injEq]
      refine ⟨by norm_num, ?_⟩
      apply List.map_congr_left
      intro i _
      simp only [Function.comp_apply, Nat.succ_eq_add_one]
      push_cast
      ring
    · simp only [List.map_cons, h3, List.length_cons, List.range_succ_eq_map,
        List.map_map]
      rw [List.cons.injEq]
      refine ⟨by norm_num, ?_⟩
      apply List.map_congr_left
      intro i _
      simp only [Function.comp_apply, Nat.succ_eq_add_one]
      push_cast
      ring
    · rw [h4]
      simp only [List.length_cons]
      push_cast
      ring

/-- The cached state after the first Scenario D push. -/
def srcScenarioD1 : AppSrc :=
  { caps := some capsScenarioD, pts := 100000000, dts := MAXUINT64,
    durCache := 100000000 }

theorem push_scenarioD_first :
    (AppSrc.init (some capsScenarioD)).push [] =
      .ok ({ pts := 100000000, offset := 1, duration := 100000000,
             dts := MAXUINT64, bytes := [] }, srcScenarioD1) := by
  rw [AppSrc.push, AppSrc.duration]
  simp only [AppSrc.init, srcScenarioD1, if_true]
  rw [calc_duration_scenarioD]
  norm_num

/-- C1: Scenario D evaluated on the code.  With source caps at framerate 10/1
the per-buffer duration is 10^8 ns, but `push` advances `pts` *before*
stamping the buffer, so ten pushes emit pts values 10^8, 2·10^8, …, 10^9 (and
offsets 1..10) — not the claimed 0, 10^8, …, 9·10^8 (offsets 0..9): the first
emitted buffer does not start from 0. -/
theorem push_pts_C1 :
    pushedPts ((AppSrc.init (some capsScenarioD)).pushN (List.replicate 10 [])) =
      some [100000000, 200000000, 300000000, 400000000, 500000000,
            600000000, 700000000, 800000000, 900000000, 1000000000] ∧
    pushedOffsets ((AppSrc.init (some capsScenarioD)).pushN (List.replicate 10 [])) =
      some [1, 2, 3, 4, 5, 6, 7, 8, 9, 10] ∧
    pushedPts ((AppSrc.init (some capsScenarioD)).pushN (List.replicate 10 [])) ≠
      some [0, 100000000, 200000000, 300000000, 400000000,
            500000000, 600000000, 700000000, 800000000, 900000000] := by
  obtain ⟨bs, src2, h1, h2, h3, h4, h5⟩ :=
    AppSrc.pushN_cached 100000000 (by norm_num) (List.replicate 9 []) srcScenarioD1 rfl
  have hsplit : (List.replicate 10 ([] : List Nat)) = [] :: List.replicate 9 [] := rfl
  have hrun : (AppSrc.init (some capsScenarioD)).pushN (List.replicate 10 []) =
      .ok ({ pts := 100000000, offset := 1, duration := 100000000,
             dts := MAXUINT64, bytes := [] } :: bs, src2) := by
    rw [hsplit, AppSrc.pushN_cons, push_scenarioD_first]
    simp only
    rw [h1]
  have hpts : bs.map PushedBuf.pts =
      [200000000, 300000000, 400000000, 500000000, 600000000,
       700000000, 800000000, 900000000, 1000000000] := by
    rw [h2]
    simp only [List.length_replicate, srcScenarioD1]
    norm_num [List.range_succ]
  have hoff : bs.map PushedBuf.offset =
      [2, 3, 4, 5, 6, 7, 8, 9, 10] := by
    rw [h3]
    simp only [List.length_replicate, srcScenarioD1]
    norm_num [List.range_succ]
  refine ⟨?_, ?_, ?_⟩
  · rw [hrun]
    simp only [pushedPts, List.map_cons, hpts]
  · rw [hrun]
    simp only [pushedOffsets, List.map_cons, hoff]
  · rw [hrun]
    simp only [pushedPts, List.map_cons, hpts]
    intro hcontr
    have h0 := Option.some.inj hcontr
    exact absurd (List.cons.inj h0).1 (by norm_num)

/-- A caps string with no `"(fraction)"` token (video caps without a framerate
field, as `Gst.Caps.to_string()` serialises them). -/
def capsNoFraction : String :=
  "video/x-raw, width=(int)320, height=(int)240, format=(string)RGB"

/-- C10 counterexample: for a source whose caps are set but contain no
parseable framerate fraction, the claim says the cached duration is 0 and
`pts / duration` raises a division-by-zero error; in fact
`caps_string.split("(fraction)")[1]` raises `IndexError` inside
`_calc_duration` first, so `push` escapes with `IndexError`, not
`ZeroDivisionError`, and the duration is never computed at all. -/
theorem duration_C10_counterexample :
    (AppSrc.init (some capsNoFraction)).push [] = .exn .indexError ∧
    calcFps capsNoFraction = .exn .indexError ∧
    PyErr.indexError ≠ PyErr.zeroDivisionError := by
  have hfps : calcFps capsNoFraction = .exn .indexError := by decide
  refine ⟨?_, hfps, by decide⟩
  rw [AppSrc.push, AppSrc.duration]
  simp only [AppSrc.init, if_true]
  rw [_calc_duration, hfps]

/-- C10 amended: if the source caps are unset, the computed duration is 0 and
`push` raises `ZeroDivisionError` at `pts / duration` before any buffer is
emitted; if the caps are set but their serialisation contains no
`"(fraction)"` token, `push` instead raises `IndexError` from the framerate
parse (likewise before any buffer is emitted).  In both cases no buffer
reaches the engine (`.exn` short-circuits before the emit). -/
theorem duration_C10_amended (src : AppSrc) :
    (src.caps = none → src.durCache = 0 →
      _calc_duration src.caps = .ok 0 ∧
      ∀ data, src.push data = .exn .zeroDivisionError) ∧
    (∀ s, src.caps = some s → src.durCache = 0 →
      (pySplit s ("(fraction)")).length < 2 →
      ∀ data, src.push data = .exn .indexError) := by
  constructor
  · intro hcaps hcache
    have hcalc : _calc_duration src.caps = .ok 0 := by rw [hcaps]; rfl
    refine ⟨hcalc, ?_⟩
    intro data
    rw [AppSrc.push, AppSrc.duration, if_pos hcache, hcalc]
    simp
  · intro s hcaps hcache hshort data
    have hfps : calcFps s = .exn .indexError := by
      rw [calcFps]
      cases hl : pySplit s ("(fraction)") with
      | nil => simp [hl]
      | cons x tail =>
        cases htl : tail with
        | nil => simp [hl, htl]
        | cons y tail2 =>
          rw [hl, htl] at hshort
          simp at hshort
          omega
    have hcalc : _calc_duration src.caps = .exn .indexError := by
      rw [hcaps, _calc_duration, hfps]
    rw [AppSrc.push, AppSrc.duration, if_pos hcache, hcalc]

/-- C10 witness: the amended theorem applied to a fresh caps-less source and
to a fresh source with the concrete fraction-less caps string. -/
theorem duration_C10_amended_witness :
    (AppSrc.init none).push [] = .exn .zeroDivisionError ∧
    (AppSrc.init (some capsNoFraction)).push [1, 2] = .exn .indexError := by
  constructor
  · exact ((duration_C10_amended (AppSrc.init none)).1 rfl rfl).2 []
  · exact (duration_C10_amended (AppSrc.init (some capsNoFraction))).2
      capsNoFraction rfl rfl (by decide) [1, 2]

/-! ## AppSink (src/gstreasy/pipeline.py, class AppSink)

`_on_buffer` runs on the engine's streaming thread; here it is modelled as a
state transition on the sink.  An outer `Option` result models suspension: the
blocking (non-leaky) `queue.Queue.put` on a full queue has no single-threaded
successor state and is returned as `none`. -/

/-- `_get_audio_np_dtype` (wrapped_caps.py): `{8: int8, 16: int16}` keyed by
the format's depth, default `uint8`. -/
def _get_audio_np_dtype (depth : Nat) : NpDtype :=
  if depth = 8 then .int8 else if depth = 16 then .int16 else .uint8

/-- `AudioCaps.wrap`: rate/channels from the caps structure, dtype by depth,
`samples_per_channel = buf.get_size() // itemsize // channels` derived from
the buffer, not negotiated.  (Python `//` on `channels = 0` would raise; no
claim exercises that case.) -/
def AudioCaps.wrap (rate channels depth : Nat) (buf : RawBuf) : AudioCaps :=
  let dtype := _get_audio_np_dtype depth
  { samplingFrequency := rate, channels := (channels : Int),
    samplesPerChannel := buf.bytes.length / dtype.itemsize / channels,
    dtype := dtype }

/-- The structure of `sample.get_caps()`, as far as `_extract_buffer` probes
it: the name tag (audio/video/unsupported) plus the fields each wrap reads. -/
inductive SampleCaps where
  | video (width height : Nat) (format : VideoFormat)
  | audio (rate channels depth : Nat)
  | other
  deriving DecidableEq, Repr

/-- A `Gst.Sample`: its caps (`none` = `get_caps()` returned nothing, the
caps-negotiation-lag case) and its buffer. -/
structure Sample where
  caps : Option SampleCaps
  buffer : RawBuf
  deriving DecidableEq, Repr

/-- The `GstBuffer` record (utils.py) handed to consumers: decoded ndarray
plus the timing metadata copied from the raw buffer. -/
structure GstBuffer where
  data : NDArr
  pts : Nat
  dts : Nat
  offset : Nat
  duration : Nat
  deriving DecidableEq, Repr

/-- Decode a raw buffer under resolved caps into the consumer record
(the `if self._caps: array = gst_buffer_to_ndarray(...)` tail of
`_extract_buffer`); numpy's validation errors propagate. -/
def mkGstBuffer (c : WrappedCaps) (raw : RawBuf) : Py GstBuffer :=
  match gst_buffer_to_ndarray raw c with
  | .exn e => .exn e
  | .ok arr =>
    .ok { data := arr, pts := raw.pts, dts := raw.dts,
          offset := raw.offset, duration := raw.duration }

/-- `Gst.FlowReturn` values `_on_buffer` can produce. -/
inductive GstFlow where
  | ok
  | err
  deriving DecidableEq, Repr

/-- The `AppSink` helper state: memoized caps, the backpressure queue (the
`LeakyQueue` state doubles as the plain `queue.Queue` when `leaky = false`;
only `put`'s overflow behaviour differs), and the policy flag. -/
structure AppSink where
  caps : Option WrappedCaps
  queue : LeakyQueue (Option GstBuffer)
  leaky : Bool
  deriving DecidableEq

/-- `AppSink.__init__`: no caps yet, empty queue of the requested capacity. -/
def AppSink.init (leaky : Bool) (qsize : Nat) : AppSink :=
  { caps := none, queue := LeakyQueue.init (Option GstBuffer) qsize, leaky := leaky }

/-- `self.queue.put(item)` for either queue flavour: the leaky queue evicts
the oldest entry when full; the blocking queue suspends (`none`) when full,
otherwise both append. -/
def queuePutAny (leaky : Bool) (q : LeakyQueue (Option GstBuffer))
    (item : Option GstBuffer) : Option (LeakyQueue (Option GstBuffer)) :=
  if leaky then some (q.put item)
  else if q.isFull then none
  else some { q with items := q.items ++ [item] }

/-- `AppSink._extract_buffer`: resolve caps from the first sample if still
unset — a missing-caps sample raises `AttributeError`, which is caught and
turned into a `None` return; an unsupported caps name raises `ValueError`
(uncaught) — then decode under the (now) cached caps, numpy errors from the
decode propagating.  The sink state is returned alongside the outcome because
Python's in-place mutation of `self._caps` persists even when the decode then
raises. -/
def AppSink.extractBuffer (s : AppSink) (sample : Sample) :
    Py (Option GstBuffer) × AppSink :=
  match s.caps with
  | some c =>
    (match mkGstBuffer c sample.buffer with
     | .exn e => .exn e
     | .ok b => .ok (some b), s)
  | none =>
    match sample.caps with
    | none => (.ok none, s)
    | some sc =>
      match sc with
      | .video w h fmt =>
        let c := WrappedCaps.video (VideoCaps.wrap w h fmt)
        (match mkGstBuffer c sample.buffer with
         | .exn e => .exn e
         | .ok b => .ok (some b), { s with caps := some c })
      | .audio rate channels depth =>
        let c := WrappedCaps.audio (AudioCaps.wrap rate channels depth sample.buffer)
        (match mkGstBuffer c sample.buffer with
         | .exn e => .exn e
         | .ok b => .ok (some b), { s with caps := some c })
      | .other => (.exn .valueError, s)

/-- `AppSink._on_buffer`: a falsy sample is logged and answered with
`FlowReturn.ERROR`; otherwise `self.queue.put(self._extract_buffer(sample))`
— i.e. whatever `_extract_buffer` returns, *including `None`*, is enqueued —
and `FlowReturn.OK` is returned.  An exception escaping `_extract_buffer`
propagates out of the callback (nothing enqueued); the first component is the
call's outcome, the second the sink state afterwards. -/
def AppSink.onBuffer (s : AppSink) (sample : Option Sample) :
    Option (Py GstFlow × AppSink) :=
  match sample with
  | none => some (.ok .err, s)
  | some sm =>
    match s.extractBuffer sm with
    | (.exn e, s1) => some (.exn e, s1)
    | (.ok item, s1) =>
      match queuePutAny s1.leaky s1.queue item with
      | none => none
      | some q2 => some (.ok .ok, { s1 with queue := q2 })

/-! ## GstPipeline (src/gstreasy/pipeline.py, class GstPipeline)

The controller state carries the engine pipeline handle (modelled by its
current `Gst.State`, `none` after release), the one-shot end-of-stream event,
the GLib main-loop liveness flag, and the wired endpoints.  `shutdown`'s
`eos`/`timeout` arguments only drive engine-side effects and real-time waits,
which have no controller-state footprint in a single-threaded model; `eos` is
kept for signature fidelity. -/

/-- `Gst.State` values the controller distinguishes. -/
inductive GstState where
  | null
  | ready
  | paused
  | playing
  deriving DecidableEq, Repr

/-- The controller state. -/
structure GstPipeline where
  pipeline : Option GstState
  endStreamEvent : Bool
  mainLoopRunning : Bool
  appsink : Option AppSink
  appsrc : Option AppSrc
  deriving DecidableEq

/-- The `state` property: `pipeline.get_state(...)[1]` when a pipeline is
held, else `Gst.State.NULL`. -/
def GstPipeline.stateOf (c : GstPipeline) : GstState :=
  match c.pipeline with
  | some s => s
  | none => .null

/-- `is_done`: the end-of-stream event fired. -/
def GstPipeline.is_done (c : GstPipeline) : Bool := c.endStreamEvent

/-- `is_active`: a pipeline is held and the end-of-stream event has not
fired. -/
def GstPipeline.is_active (c : GstPipeline) : Bool :=
  c.pipeline.isSome && !c.is_done

/-- `_shutdown_pipeline`: nothing to do without a pipeline; otherwise set the
one-shot end-stream event, optionally send EOS to the engine (external side
effect), wait, force the engine state to NULL and release the handle. -/
def GstPipeline.shutdownPipeline (c : GstPipeline) (eos : Bool) : GstPipeline :=
  match c.pipeline with
  | none => c
  | some _ => { c with endStreamEvent := true, pipeline := none }

/-- `_shutdown_main_loop`: quit the loop if it is running. -/
def GstPipeline.shutdownMainLoop (c : GstPipeline) : GstPipeline :=
  if c.mainLoopRunning then { c with mainLoopRunning := false } else c

/-- `shutdown`: return immediately when already in `Gst.State.NULL` (the
"don't print shutdown message twice" guard), else tear down the pipeline and
the main loop.  Total — no raise path. -/
def GstPipeline.shutdown (c : GstPipeline) (eos : Bool) : GstPipeline :=
  if c.stateOf = GstState.null then c
  else (c.shutdownPipeline eos).shutdownMainLoop

/-- The `pop` retry loop, `while (is_active or queue non-empty) and not buf:
try: buf = queue.get(timeout)`, evaluated with no concurrent producer: a
non-empty queue serves its front entry (note a `None` placeholder entry
leaves `buf` falsy, so the loop keeps draining); an empty queue with an
active pipeline retries (fuel counts retries); an empty queue with an
inactive pipeline exits the loop with `buf = None`. -/
def popLoopFuel : Nat → Bool → List (Option GstBuffer) →
    Option (Option GstBuffer × List (Option GstBuffer))
  | 0, _, _ => none
  | fuel + 1, active, q =>
    if active = true ∨ q ≠ [] then
      match q with
      | item :: rest =>
        match item with
        | some b => some (some b, rest)
        | none => popLoopFuel fuel active rest
      | [] => popLoopFuel fuel active []
    else some (none, q)

/-- `GstPipeline.pop`: with no wired appsink, log critical, `self.shutdown()`
and `raise RuntimeError` — before and independent of any queue access (the
error branch consumes no fuel: no blocking); otherwise run the retry loop on
the sink queue. -/
def GstPipeline.pop (c : GstPipeline) (fuel : Nat) :
    Option (Py (Option GstBuffer) × GstPipeline) :=
  match c.appsink with
  | none => some (.exn .runtimeError, c.shutdown false)
  | some sink =>
    match popLoopFuel fuel c.is_active sink.queue.items with
    | none => none
    | some (r, items2) =>
      some (.ok r, { c with appsink := some ({ sink with queue := { sink.queue with items := items2 } }) })

/-- `GstPipeline.push`: with no wired appsrc, log critical, `self.shutdown()`
and `raise RuntimeError`; otherwise delegate to `AppSrc.push` (whose
exceptions propagate; its pre-raise state mutation is `pts += 0`, a no-op, so
the unchanged controller state on the `.exn` path is exact). -/
def GstPipeline.push (c : GstPipeline) (data : List Nat) :
    Py Unit × GstPipeline :=
  match c.appsrc with
  | none => (.exn .runtimeError, c.shutdown false)
  | some src =>
    match src.push data with
    | .exn e => (.exn e, c)
    | .ok (_, src2) => (.ok (), { c with appsrc := some src2 })

/-- Repeatedly call the (stopped-state) pop loop, collecting each result. -/
def drainLoop : Nat → Bool → List (Option GstBuffer) → List (Option GstBuffer)
  | 0, _, _ => []
  | n + 1, active, q =>
    match popLoopFuel (q.length + 1) active q with
    | some (r, q2) => r :: drainLoop n active q2
    | none => []

/-- C3 counterexample: the claim says a buffer whose format resolution fails
is skipped with "no decoded item placed into the backpressure queue"; in fact
`_on_buffer` runs `self.queue.put(self._extract_buffer(sample))`, so the
`None` returned by the failed resolution is itself enqueued: from an empty
queue, the queue afterwards holds one (placeholder) entry, not zero. -/
theorem resolution_C3_counterexample :
    AppSink.onBuffer (AppSink.init false 100)
        (some { caps := none, buffer := { bytes := [], pts := 0, dts := 0,
                                          duration := 0, offset := 0 } })
      = some (.ok .ok,
          { caps := none,
            queue := { maxsize := 100, items := [none], dropped := 0 },
            leaky := false }) ∧
    ([  (none : Option GstBuffer)] : List (Option GstBuffer)) ≠ [] := by
  constructor
  · decide
  · decide

/-- C3 amended: on a new-buffer notification whose sample carries no caps,
the sink raises nothing and returns `FlowReturn.OK`, leaves `_caps` unset so
resolution is retried on the next notification — but the buffer is not
silently dropped: a `None` placeholder is appended to the backpressure queue.
On a later notification carrying video caps the retry resolves and caches the
caps; if the decode then succeeds the decoded buffer is enqueued with
`FlowReturn.OK`, while a decode error (e.g. numpy's `ValueError` on the `-1`
dimension of a channels-free format, see C9) propagates out of the callback
with nothing enqueued and the resolved caps retained. -/
theorem resolution_C3_amended (s : AppSink) (sample : Sample)
    (hcaps : s.caps = none) (hroom : ¬ s.queue.isFull) :
    (sample.caps = none →
      s.onBuffer (some sample) =
        some (.ok .ok,
          { s with queue := { s.queue with items := s.queue.items ++ [none] } })) ∧
    (∀ w h fmt b, sample.caps = some (.video w h fmt) →
      mkGstBuffer (WrappedCaps.video (VideoCaps.wrap w h fmt)) sample.buffer
        = .ok b →
      s.onBuffer (some sample) =
        some (.ok .ok,
          { s with
            caps := some (WrappedCaps.video (VideoCaps.wrap w h fmt)),
            queue := { s.queue with items := s.queue.items ++ [some b] } })) ∧
    (∀ w h fmt e, sample.caps = some (.video w h fmt) →
      mkGstBuffer (WrappedCaps.video (VideoCaps.wrap w h fmt)) sample.buffer
        = .exn e →
      s.onBuffer (some sample) =
        some (.exn e,
          { s with caps := some (WrappedCaps.video (VideoCaps.wrap w h fmt)) })) := by
  refine ⟨?_, ?_, ?_⟩
  · intro hsc
    rw [AppSink.onBuffer, AppSink.extractBuffer, hcaps, hsc]
    simp only
    rw [queuePutAny]
    by_cases hl : s.leaky
    · rw [if_pos hl, LeakyQueue.put, if_neg hroom]
      simp [hcaps]
    · rw [if_neg hl, if_neg hroom]
      simp [hcaps]
  · intro w h fmt b hsc hmk
    rw [AppSink.onBuffer, AppSink.extractBuffer, hcaps, hsc]
    simp only
    rw [hmk]
    simp only
    rw [queuePutAny]
    by_cases hl : s.leaky
    · rw [if_pos hl, LeakyQueue.put, if_neg hroom]
    · rw [if_neg hl, if_neg hroom]
  · intro w h fmt e hsc hmk
    rw [AppSink.onBuffer, AppSink.extractBuffer, hcaps, hsc]
    simp only
    rw [hmk]

/-- C3 witness: a fresh (blocking, capacity 100) sink.  A caps-less sample
enqueues the placeholder and keeps caps unset; the retry with a 3×2 GRAY8
sample (6 mapped bytes) resolves and enqueues the decoded buffer; a 4×2 I420
sample instead propagates numpy's `ValueError` (negative channel dimension),
enqueuing nothing but retaining the resolved caps. -/
theorem resolution_C3_amended_witness :
    AppSink.onBuffer (AppSink.init false 100)
        (some { caps := none, buffer := { bytes := [], pts := 0, dts := 0,
                                          duration := 0, offset := 0 } })
      = some (.ok .ok,
          { caps := none,
            queue := { maxsize := 100, items := [none], dropped := 0 },
            leaky := false }) ∧
    AppSink.onBuffer (AppSink.init false 100)
        (some { caps := some (.video 3 2 VideoFormat.GRAY8),
                buffer := { bytes := [10, 20, 30, 40, 50, 60], pts := 7,
                            dts := 8, duration := 9, offset := 10 } })
      = some (.ok .ok,
          { caps := some (WrappedCaps.video (VideoCaps.wrap 3 2 VideoFormat.GRAY8)),
            queue := { maxsize := 100,
                       items := [some { data := { shape := [(2 : Int), 3],
                                                  bytes := [10, 20, 30, 40, 50, 60] },
                                        pts := 7, dts := 8, offset := 10,
                                        duration := 9 }],
                       dropped := 0 },
            leaky := false }) ∧
    AppSink.onBuffer (AppSink.init false 100)
        (some { caps := some (.video 4 2 VideoFormat.I420),
                buffer := { bytes := [], pts := 0, dts := 0, duration := 0,
                            offset := 0 } })
      = some (.exn .valueError,
          { caps := some (WrappedCaps.video (VideoCaps.wrap 4 2 VideoFormat.I420)),
            queue := { maxsize := 100, items := [], dropped := 0 },
            leaky := false }) := by
  refine ⟨?_, ?_, ?_⟩
  · exact (resolution_C3_amended (AppSink.init false 100)
      { caps := none, buffer := { bytes := [], pts := 0, dts := 0,
                                  duration := 0, offset := 0 } }
      rfl (by decide)).1 rfl
  · exact (resolution_C3_amended (AppSink.init false 100)
      { caps := some (.video 3 2 VideoFormat.GRAY8),
        buffer := { bytes := [10, 20, 30, 40, 50, 60], pts := 7, dts := 8,
                    duration := 9, offset := 10 } }
      rfl (by decide)).2.1 3 2 VideoFormat.GRAY8
      { data := { shape := [(2 : Int), 3], bytes := [10, 20, 30, 40, 50, 60] },
        pts := 7, dts := 8, offset := 10, duration := 9 }
      rfl (by decide)
  · exact (resolution_C3_amended (AppSink.init false 100)
      { caps := some (.video 4 2 VideoFormat.I420),
        buffer := { bytes := [], pts := 0, dts := 0, duration := 0,
                    offset := 0 } }
      rfl (by decide)).2.2 4 2 VideoFormat.I420 PyErr.valueError
      rfl (by decide)

/-- C6: `pop()` on a controller with no wired sink — and `push()` on one with
no wired source — return a raised error to the caller immediately (the error
branch is taken before any queue access: `pop`'s result is independent of the
retry fuel, even fuel 0, so there is no blocking and no silent no-op), and the
returned controller state is `self.shutdown()` of the old one.  The raise is
Python's bare `RuntimeError`, which §7 of the specification names
`ConfigurationError`. -/
theorem no_endpoint_C6 (c : GstPipeline) :
    (c.appsink = none →
      ∀ fuel, c.pop fuel = some (.exn .runtimeError, c.shutdown false)) ∧
    (c.appsrc = none →
      ∀ data, c.push data = (.exn .runtimeError, c.shutdown false)) := by
  constructor
  · intro hsink fuel
    rw [GstPipeline.pop, hsink]
  · intro hsrc data
    rw [GstPipeline.push, hsrc]

/-- C6 witness: a fully stopped controller with neither endpoint wired. -/
theorem no_endpoint_C6_witness :
    GstPipeline.pop
        { pipeline := none, endStreamEvent := true, mainLoopRunning := false,
          appsink := none, appsrc := none } 0
      = some (.exn .runtimeError,
          GstPipeline.shutdown
            { pipeline := none, endStreamEvent := true, mainLoopRunning := false,
              appsink := none, appsrc := none } false) ∧
    GstPipeline.push
        { pipeline := none, endStreamEvent := true, mainLoopRunning := false,
          appsink := none, appsrc := none } [1, 2, 3]
      = (.exn .runtimeError,
          GstPipeline.shutdown
            { pipeline := none, endStreamEvent := true, mainLoopRunning := false,
              appsink := none, appsrc := none } false) := by
  constructor
  · exact (no_endpoint_C6 _).1 rfl 0
  · exact (no_endpoint_C6 _).2 rfl [1, 2, 3]

/-- C7: `shutdown()` is idempotent and never raises (it is a total function
of the controller state): a second call — with any `eos` argument — is the
identity on the result of the first, every call lands in the terminal
`Gst.State.NULL` state, and on a controller already in the terminal state
`shutdown` returns it unchanged (no side effects). -/
theorem shutdown_C7 :
    (∀ (eos eos2 : Bool) (c : GstPipeline),
      (c.shutdown eos).shutdown eos2 = c.shutdown eos) ∧
    (∀ (eos : Bool) (c : GstPipeline),
      (c.shutdown eos).stateOf = GstState.null) ∧
    (∀ (eos : Bool) (c : GstPipeline),
      c.stateOf = GstState.null → c.shutdown eos = c) := by
  have hpipe : ∀ (c2 : GstPipeline), (c2.shutdownMainLoop).pipeline = c2.pipeline := by
    intro c2
    rw [GstPipeline.shutdownMainLoop]
    split <;> rfl
  have hterm : ∀ (eos : Bool) (c : GstPipeline),
      (c.shutdown eos).stateOf = GstState.null := by
    intro eos c
    rw [GstPipeline.shutdown]
    by_cases h0 : c.stateOf = GstState.null
    · rw [if_pos h0]; exact h0
    · rw [if_neg h0]
      rw [GstPipeline.stateOf, hpipe]
      cases hp : c.pipeline with
      | none =>
        exfalso; apply h0; rw [GstPipeline.stateOf, hp]
      | some st =>
        rw [GstPipeline.shutdownPipeline, hp]
  have hnull : ∀ (eos : Bool) (c : GstPipeline),
      c.stateOf = GstState.null → c.shutdown eos = c := by
    intro eos c h0
    rw [GstPipeline.shutdown, if_pos h0]
  refine ⟨?_, hterm, hnull⟩
  intro eos eos2 c
  exact hnull eos2 (c.shutdown eos) (hterm eos c)

/-- C7 witness: a playing controller shut down twice, and a stopped one shut
down again. -/
theorem shutdown_C7_witness :
    ((GstPipeline.shutdown
        { pipeline := some GstState.playing, endStreamEvent := false,
          mainLoopRunning := true, appsink := none, appsrc := none } false).shutdown true
      = GstPipeline.shutdown
          { pipeline := some GstState.playing, endStreamEvent := false,
            mainLoopRunning := true, appsink := none, appsrc := none } false) ∧
    GstPipeline.shutdown
        { pipeline := none, endStreamEvent := true, mainLoopRunning := false,
          appsink := none, appsrc := none } false
      = { pipeline := none, endStreamEvent := true, mainLoopRunning := false,
          appsink := none, appsrc := none } := by
  constructor
  · exact shutdown_C7.1 false true _
  · exact shutdown_C7.2.2 false _ (by decide)

/-- A tiny distinct buffer for concrete scenarios. -/
def mkB (n : Nat) : GstBuffer :=
  { data := { shape := [], bytes := [] }, pts := n, dts := 0, offset := 0,
    duration := 0 }

theorem popLoopFuel_inactive_cons (fuel : Nat) (b : GstBuffer)
    (rest : List (Option GstBuffer)) :
    popLoopFuel (fuel + 1) false (some b :: rest) = some (some b, rest) := by
  rw [popLoopFuel]
  simp

theorem popLoopFuel_inactive_nil (fuel : Nat) :
    popLoopFuel (fuel + 1) false [] = some (none, []) := by
  rw [popLoopFuel]
  simp

/-- Draining a stopped controller's queue of `k` real buffers: `k` loop runs
serve the buffers in FIFO order and the `(k+1)`-th returns `None`. -/
theorem drainLoop_inactive (bufs : List GstBuffer) :
    drainLoop (bufs.length + 1) false (bufs.map some) = bufs.map some ++ [none] := by
  induction bufs with
  | nil =>
    rw [drainLoop]
    simp only [List.map_nil, List.length_nil]
    rw [popLoopFuel_inactive_nil]
    rfl
  | cons b rest ih =>
    rw [drainLoop]
    simp only [List.map_cons, List.length_cons]
    rw [popLoopFuel_inactive_cons]
    simp only [List.length_map] at ih ⊢
    rw [ih]
    simp

/-- The fuel that always suffices for one `pop` on an inactive controller:
one retry per queue entry plus the final guard check. -/
def GstPipeline.sinkFuel (c : GstPipeline) : Nat :=
  match c.appsink with
  | some s => s.queue.items.length + 1
  | none => 1

/-- `n` successive `pop()` calls from the application thread, collecting each
call's outcome and threading the controller state. -/
def popDrainGo : Nat → GstPipeline → List (Py (Option GstBuffer))
  | 0, _ => []
  | n + 1, c =>
    match c.pop c.sinkFuel with
    | some (r, c2) => r :: popDrainGo n c2
    | none => []

/-- Controller-level drain: `k+1` pops on a stopped controller whose queue
holds `k` buffers return the `k` buffers in FIFO order and then `None`. -/
theorem popDrainGo_inactive :
    ∀ (bufs : List GstBuffer) (c : GstPipeline) (sink : AppSink),
      c.appsink = some sink → c.is_active = false →
      sink.queue.items = bufs.map some →
      popDrainGo (bufs.length + 1) c
        = bufs.map (fun b => Py.ok (some b)) ++ [Py.ok none] := by
  intro bufs
  induction bufs with
  | nil =>
    intro c sink hsink hact hq
    rw [popDrainGo]
    have hfuel : c.sinkFuel = 1 := by
      simp only [GstPipeline.sinkFuel, hsink, hq, List.map_nil, List.length_nil]
    have hpop : c.pop c.sinkFuel = some (.ok none, { c with appsink := some ({ sink with queue := { sink.queue with items := [] } }) }) := by
      rw [hfuel]
      simp only [GstPipeline.pop, hsink, hq, hact, List.map_nil]
      rw [popLoopFuel_inactive_nil]
    rw [hpop]
    rfl
  | cons b rest ih =>
    intro c sink hsink hact hq
    rw [popDrainGo]
    have hfuel : c.sinkFuel = rest.length + 1 + 1 := by
      simp only [GstPipeline.sinkFuel, hsink, hq, List.map_cons, List.length_cons,
        List.length_map]
    have hpop : c.pop c.sinkFuel = some (.ok (some b), { c with appsink := some ({ sink with queue := { sink.queue with items := rest.map some } }) }) := by
      rw [hfuel]
      simp only [GstPipeline.pop, hsink, hq, hact, List.map_cons]
      rw [popLoopFuel_inactive_cons]
    rw [hpop]
    simp only [List.length_cons, List.map_cons, List.cons_append]
    congr 1
    exact ih _ _ rfl hact rfl

/-- C8: once the controller is inactive (Stopped) with `k` buffers still
queued, the pop loop returns each of the `k` buffers in FIFO order on the
first `k` calls and `None` on the `(k+1)`-th — the loop's guard
`(is_active or queue non-empty)` only lets `None` escape when both conditions
have failed; and a single `pop()` call on such a controller serves the queue
front (or `None` when the queue is empty) without error, leaving the rest of
the queue in place. -/
theorem pop_drain_C8 (c : GstPipeline) (sink : AppSink) (bufs : List GstBuffer)
    (hsink : c.appsink = some sink)
    (hstopped : c.is_active = false)
    (hq : sink.queue.items = bufs.map some) :
    drainLoop (bufs.length + 1) c.is_active sink.queue.items
      = bufs.map some ++ [none] ∧
    popDrainGo (bufs.length + 1) c
      = bufs.map (fun b => Py.ok (some b)) ++ [Py.ok none] ∧
    c.pop 1 = some (.ok bufs.head?, { c with appsink := some ({ sink with queue := { sink.queue with items := (bufs.map some).tail } }) }) := by
  refine ⟨?_, popDrainGo_inactive bufs c sink hsink hstopped hq, ?_⟩
  · rw [hq, hstopped]
    exact drainLoop_inactive bufs
  · simp only [GstPipeline.pop, hsink, hq, hstopped]
    cases bufs with
    | nil =>
      simp only [List.map_nil, List.tail_nil, List.head?_nil]
      rw [popLoopFuel_inactive_nil]
    | cons b rest =>
      simp only [List.map_cons, List.tail_cons, List.head?_cons]
      rw [popLoopFuel_inactive_cons]

/-- The sink of the Scenario E witness controller. -/
def sinkE (items : List (Option GstBuffer)) : AppSink :=
  { caps := none,
    queue := { maxsize := 100, items := items, dropped := 0 },
    leaky := false }

/-- A stopped Scenario E controller holding the given queue entries. -/
def pipeE (items : List (Option GstBuffer)) : GstPipeline :=
  { pipeline := none, endStreamEvent := true, mainLoopRunning := false,
    appsink := some (sinkE items), appsrc := none }

/-- C8 witness: Scenario E tail — a stopped controller with 3 queued buffers;
the drain sequence is the 3 buffers then `None`, and the first `pop` serves
the first buffer. -/
theorem pop_drain_C8_witness :
    popDrainGo 4 (pipeE [some (mkB 1), some (mkB 2), some (mkB 3)])
      = [Py.ok (some (mkB 1)), Py.ok (some (mkB 2)), Py.ok (some (mkB 3)),
         Py.ok none] ∧
    GstPipeline.pop (pipeE [some (mkB 1), some (mkB 2), some (mkB 3)]) 1
      = some (.ok (some (mkB 1)), pipeE [some (mkB 2), some (mkB 3)]) := by
  have h := pop_drain_C8
    (pipeE [some (mkB 1), some (mkB 2), some (mkB 3)])
    (sinkE [some (mkB 1), some (mkB 2), some (mkB 3)])
    [mkB 1, mkB 2, mkB 3] rfl rfl rfl
  exact ⟨h.2.1, h.2.2⟩
